import Mathlib

/-!
Shallow embedding of `pylablib/thread/script_thread.py` (class `ScriptThread`):
the task lifecycle controller (`__init__`, `process_interrupt`, `check_stop`,
`_start_script`, `finalize_script`/`finalize_task`) and the signal-monitor
registry (`MonitoredSignal`, `add_signal_monitor`, `remove_signal_monitor`,
`wait_for_signal_monitor`, `new_monitored_signals_number`,
`pop_monitored_signal`, `reset_monitored_signal`, `pause_monitoring`,
`start_monitoring`, `_on_monitor_signal`).

Python mutation is modelled by explicit state passing; Python exceptions by
`Except PyError` (with the internal `ScriptStopException` tracked separately
in the run semantics); the `_monitored_signals` dict by an insertion-ordered
association list.
-/

namespace ScriptThread

/-- Python exceptions that the embedded code can raise. -/
inductive PyError where
  | keyError (msg : String)
  | typeError (msg : String)
  | indexError (msg : String)
deriving DecidableEq, Repr

/-- A multicast message, `multicast_pool.TMulticast(src, tag, value)`.
The payload is abstracted to a `Nat`, which is enough for all claims. -/
structure TMulticast where
  src : String
  tag : String
  value : Nat
deriving DecidableEq, Repr

/-- Class `ScriptThread.MonitoredSignal`: record with a bus-subscription
uid, a FIFO message queue, and a paused flag. -/
structure MonitoredSignal where
  uid : Nat
  messages : List TMulticast
  paused : Bool
deriving DecidableEq, Repr

/-- Constructor `MonitoredSignal(uid)`: `self.messages=[]`, `self.paused=True`. -/
def MonitoredSignal.init (uid : Nat) : MonitoredSignal :=
  { uid := uid, messages := [], paused := true }

/-- Python tuple unpacking `a, b = x` applied to a `MonitoredSignal` instance.
The class defines neither `__iter__` nor `__getitem__`, so CPython raises
`TypeError: cannot unpack non-iterable MonitoredSignal object`. -/
def MonitoredSignal.unpack2 (_s : MonitoredSignal) :
    Except PyError (Nat × List TMulticast) :=
  .error (.typeError "cannot unpack non-iterable MonitoredSignal object")

/-- The `self._monitored_signals` dict: an insertion-ordered association list
from monitor name to `MonitoredSignal` record. -/
abbrev Registry := List (String × MonitoredSignal)

/-- Membership test `mon in self._monitored_signals`. -/
def containsMon (reg : Registry) (mon : String) : Bool :=
  match reg with
  | [] => false
  | (k, _) :: rest => if k = mon then true else containsMon rest mon

/-- Dict access `self._monitored_signals[mon]` as an optional lookup. -/
def lookupMon (reg : Registry) (mon : String) : Option MonitoredSignal :=
  match reg with
  | [] => none
  | (k, v) :: rest => if k = mon then some v else lookupMon rest mon

/-- Replace the record stored under `mon` (in-place mutation of the dict
entry's value); leaves the registry unchanged if `mon` is absent. -/
def updateMon (reg : Registry) (mon : String) (sig : MonitoredSignal) : Registry :=
  match reg with
  | [] => []
  | (k, v) :: rest =>
      if k = mon then (k, sig) :: rest else (k, v) :: updateMon rest mon sig

/-- Dict removal `self._monitored_signals.pop(mon)`: removes the entry under `mon`. -/
def eraseMon (reg : Registry) (mon : String) : Registry :=
  match reg with
  | [] => []
  | (k, v) :: rest => if k = mon then rest else (k, v) :: eraseMon rest mon

/-- Registry plus the set of live bus-subscription uids (the part of the
`MulticastPool` state that `subscribe_nonsync`/`unsubscribe` touch). -/
structure MonState where
  signals : Registry
  subs : List Nat
deriving DecidableEq, Repr

/-- Method `ScriptThread.add_signal_monitor(mon, ...)`: raises `KeyError` if `mon`
already exists; otherwise subscribes (the bus hands back the fresh uid `uid`)
and stores a fresh `MonitoredSignal(uid)` under `mon`. -/
def add_signal_monitor (st : MonState) (mon : String) (uid : Nat) :
    Except PyError MonState :=
  if containsMon st.signals mon then
    .error (.keyError "signal monitor already exists")
  else
    .ok { signals := st.signals ++ [(mon, MonitoredSignal.init uid)],
          subs := st.subs ++ [uid] }

/-- Method `ScriptThread.remove_signal_monitor(mon)`: raises `KeyError` if `mon` is
absent; otherwise executes `uid,_=self._monitored_signals.pop(mon)` — the
dict entry is removed, but unpacking the popped `MonitoredSignal` fails (see
`MonitoredSignal.unpack2`), so `self.unsubscribe(uid)` is never reached. -/
def remove_signal_monitor (st : MonState) (mon : String) :
    Except PyError MonState :=
  match lookupMon st.signals mon with
  | none => .error (.keyError "signal monitor does not exist")
  | some sig =>
      match sig.unpack2 with
      | .error e => .error e
      | .ok (uid, _) =>
          .ok { signals := eraseMon st.signals mon,
                subs := st.subs.filter (fun u => u ≠ uid) }

/-- Slot `ScriptThread._on_monitor_signal(value)` with `value=(mon,msg)`: appends
`msg` to the queue of monitor `mon` unless it is paused; a missing monitor is
silently ignored (`except KeyError: pass`). -/
def on_monitor_signal (reg : Registry) (mon : String) (msg : TMulticast) :
    Registry :=
  match lookupMon reg mon with
  | none => reg
  | some sig =>
      if sig.paused then reg
      else updateMon reg mon { sig with messages := sig.messages ++ [msg] }

/-- A sequence of bus deliveries handed to `_on_monitor_signal` in order. -/
def deliver_all (reg : Registry) (deliveries : List (String × TMulticast)) :
    Registry :=
  deliveries.foldl (fun r d => on_monitor_signal r d.1 d.2) reg

/-- Method `ScriptThread.new_monitored_signals_number(mon)`: queue length, or
`KeyError` if the monitor is absent. -/
def new_monitored_signals_number (reg : Registry) (mon : String) :
    Except PyError Nat :=
  match lookupMon reg mon with
  | none => .error (.keyError "signal monitor does not exist")
  | some sig => .ok sig.messages.length

/-- The comprehension `[self._monitored_signals[mon].messages.pop(0) for _ in range(n)]`:
pops `n` messages off the front, raising `IndexError` when the queue runs
out before `n` pops have happened. -/
def popN (msgs : List TMulticast) (n : Nat) :
    Except PyError (List TMulticast × List TMulticast) :=
  match n, msgs with
  | 0, msgs => .ok ([], msgs)
  | _ + 1, [] => .error (.indexError "pop from empty list")
  | n + 1, m :: rest =>
      match popN rest n with
      | .error e => .error e
      | .ok (taken, remaining) => .ok (m :: taken, remaining)

/-- Result of `ScriptThread.pop_monitored_signal`: a single message
(`n is None`), a list of messages (`n` given), or Python `None`. -/
inductive PopResult where
  | one (m : TMulticast)
  | many (ms : List TMulticast)
  | nothing
deriving DecidableEq, Repr

/-- Method `ScriptThread.pop_monitored_signal(mon, n=None)`: if the queue is
nonempty, pop the head (`n is None`) or pop `n` messages; else return
`None`. A missing monitor raises `KeyError` (via
`new_monitored_signals_number`). -/
def pop_monitored_signal (reg : Registry) (mon : String) (n : Option Nat) :
    Except PyError (PopResult × Registry) :=
  match lookupMon reg mon with
  | none => .error (.keyError "signal monitor does not exist")
  | some sig =>
      if sig.messages.length ≠ 0 then
        match n with
        | none =>
            match sig.messages with
            | [] => .error (.indexError "pop from empty list")
            | m :: rest =>
                .ok (.one m, updateMon reg mon { sig with messages := rest })
        | some k =>
            match popN sig.messages k with
            | .error e => .error e
            | .ok (taken, rest) =>
                .ok (.many taken, updateMon reg mon { sig with messages := rest })
      else .ok (.nothing, reg)

/-- Method `ScriptThread.reset_monitored_signal(mon)`:
`self._monitored_signals[mon].messages.clear()`; the bare dict access raises
`KeyError` if `mon` is absent. -/
def reset_monitored_signal (reg : Registry) (mon : String) :
    Except PyError Registry :=
  match lookupMon reg mon with
  | none => .error (.keyError "signal monitor does not exist")
  | some sig => .ok (updateMon reg mon { sig with messages := [] })

/-- Method `ScriptThread.pause_monitoring(mon, paused)`:
`self._monitored_signals[mon].paused=paused`. -/
def pause_monitoring (reg : Registry) (mon : String) (paused : Bool) :
    Except PyError Registry :=
  match lookupMon reg mon with
  | none => .error (.keyError "signal monitor does not exist")
  | some sig => .ok (updateMon reg mon { sig with paused := paused })

/-- Method `ScriptThread.start_monitoring(mon)`: `pause_monitoring(mon, paused=False)`. -/
def start_monitoring (reg : Registry) (mon : String) : Except PyError Registry :=
  pause_monitoring reg mon false

/-- The validation loop at the head of `wait_for_signal_monitor`: for each
requested name in order, raise `KeyError` if it is not registered. -/
def validateMons (reg : Registry) : List String → Except PyError Unit
  | [] => .ok ()
  | mon :: rest =>
      if containsMon reg mon then validateMons reg rest
      else .error (.keyError "signal monitor does not exist")

/-- The closure `check_monitors(pop=True)` inside `wait_for_signal_monitor`: walk the
requested names in caller order and pop the head message of the first monitor
with a nonempty queue, returning `(mon, message, updated registry)`; `none`
when every requested queue is empty.  The bare dict access raises `KeyError`
for an unregistered name. -/
def check_monitors_pop (reg : Registry) :
    List String → Except PyError (Option (String × TMulticast × Registry))
  | [] => .ok none
  | mon :: rest =>
      match lookupMon reg mon with
      | none => .error (.keyError "signal monitor does not exist")
      | some sig =>
          match sig.messages with
          | [] => check_monitors_pop reg rest
          | m :: ms =>
              .ok (some (mon, m, updateMon reg mon { sig with messages := ms }))

/-- The closure `check_monitors(pop=False)`, the predicate handed to `wait_until`: true
iff some requested monitor has a nonempty queue. -/
def check_monitors_bool (reg : Registry) : List String → Except PyError Bool
  | [] => .ok false
  | mon :: rest =>
      match lookupMon reg mon with
      | none => .error (.keyError "signal monitor does not exist")
      | some sig =>
          if sig.messages.isEmpty then check_monitors_bool reg rest
          else .ok true

/-- The call `self.wait_until(check_monitors, timeout=timeout)`: the thread's pump
delivers the pending bus events (`arrivals`) one at a time through
`_on_monitor_signal`, re-checking the predicate after each; the wait returns
as soon as the predicate holds, or after the pump runs out of events before
the timeout elapses. -/
def wait_until_monitors (reg : Registry) (mons : List String) :
    List (String × TMulticast) → Except PyError Registry
  | [] => .ok reg
  | a :: rest =>
      let reg1 := on_monitor_signal reg a.1 a.2
      match check_monitors_bool reg1 mons with
      | .error e => .error e
      | .ok true => .ok reg1
      | .ok false => wait_until_monitors reg1 mons rest

/-- Method `ScriptThread.wait_for_signal_monitor(mons, timeout)`: validate all the
requested names, return an already-buffered message immediately if one
exists, otherwise wait (modelled by the pump deliveries `arrivals`) and pop
again; returns Python `None` (here `Option.none`) when nothing arrived. -/
def wait_for_signal_monitor (reg : Registry) (mons : List String)
    (arrivals : List (String × TMulticast)) :
    Except PyError (Option (String × TMulticast) × Registry) :=
  match validateMons reg mons with
  | .error e => .error e
  | .ok () =>
      match check_monitors_pop reg mons with
      | .error e => .error e
      | .ok (some (mon, msg, reg1)) => .ok (some (mon, msg), reg1)
      | .ok none =>
          match wait_until_monitors reg mons arrivals with
          | .error e => .error e
          | .ok reg2 =>
              match check_monitors_pop reg2 mons with
              | .error e => .error e
              | .ok (some (mon, msg, reg3)) => .ok (some (mon, msg), reg3)
              | .ok none => .ok (none, reg2)

/-! ## Task lifecycle controller -/

/-- Values of the `interrupt_reason` attribute. -/
inductive Reason where
  | done
  | stopped
  | failed
  | shutdown
deriving DecidableEq, Repr

/-- The lifecycle state owned by the controller: `executing`,
`interrupt_reason`, `stop_request` (set in `ScriptThread.__init__`). -/
structure TaskState where
  executing : Bool
  interrupt_reason : Reason
  stop_request : Bool
deriving DecidableEq, Repr

/-- Initial state set by `ScriptThread.__init__`: `executing=False`, `interrupt_reason="shutdown"`,
`stop_request=False`. -/
def initState : TaskState :=
  { executing := false, interrupt_reason := .shutdown, stop_request := false }

/-- Cross-thread interrupts handled by `process_interrupt`. -/
inductive Interrupt where
  | start
  | stop
deriving DecidableEq, Repr

/-- Effect of `ScriptThread.process_interrupt` on the lifecycle state:
`"control.start"` queues the `start_script` command (not part of the state)
and sets `stop_request` if already executing; `"control.stop"` sets
`stop_request`. -/
def process_interrupt (st : TaskState) : Interrupt → TaskState
  | .start => if st.executing then { st with stop_request := true } else st
  | .stop => { st with stop_request := true }

/-- The call `self.check_messages()`: the pump processes the pending cross-thread
interrupts in order. -/
def check_messages (st : TaskState) (pending : List Interrupt) : TaskState :=
  pending.foldl process_interrupt st

/-- Method `ScriptThread.check_stop(check_messages=True)`: optionally drain pending
interrupts, then, if `stop_request` is set, clear it and raise
`ScriptStopException` (the returned `Bool` records whether it was raised). -/
def check_stop (st : TaskState) (check_messages_flag : Bool)
    (pending : List Interrupt) : TaskState × Bool :=
  let st1 := if check_messages_flag then check_messages st pending else st
  if st1.stop_request then ({ st1 with stop_request := false }, true)
  else (st1, false)

/-- How a `run_script` invocation ends: returns normally, raises
`ScriptStopException`, or raises some other error. -/
inductive RunOutcome where
  | normal
  | stopExc
  | otherError
deriving DecidableEq, Repr

/-- A user `run_script` body, as the sequence of controller-relevant steps it
takes: a `check_stop` call (with the interrupts pending at that moment), a
step that raises a non-stop error, or any other computation. -/
inductive ScriptAction where
  | checkStop (pending : List Interrupt)
  | raiseOther
  | other
deriving DecidableEq, Repr

/-- Run the user script body from state `st`: each `check_stop` may raise the
stop exception (ending the run with `RunOutcome.stopExc`), `raiseOther` ends
it with `RunOutcome.otherError`, and falling off the end is a normal return. -/
def run_actions (st : TaskState) : List ScriptAction → TaskState × RunOutcome
  | [] => (st, .normal)
  | .checkStop pending :: rest =>
      let res := check_stop st true pending
      if res.2 then (res.1, .stopExc) else run_actions res.1 rest
  | .raiseOther :: _ => (st, .otherError)
  | .other :: rest => run_actions st rest

/-- The state on entry to `_start_script`'s `try` body:
`self.executing=True`, `self.stop_request=False`, `self.interrupt_reason="done"`. -/
def run_entry (st : TaskState) : TaskState :=
  { st with executing := true, stop_request := false, interrupt_reason := .done }

/-- Result of a supervised run: the final lifecycle state, the
`interrupt_reason` current at each `interrupt_script` call made by
`_start_script`, and whether a non-stop error was re-raised. -/
structure RunResult where
  state : TaskState
  interrupts : List Reason
  raised : Bool
deriving DecidableEq, Repr

/-- Command handler `ScriptThread._start_script`: set up the entry state, run `run_script`,
and supervise the outcome — normal return and `ScriptStopException` both end
with `interrupt_script` called and the state back at
`interrupt_reason="shutdown"`, `executing=False`; any other error sets
`interrupt_reason="failed"` and is re-raised without calling
`interrupt_script`. -/
def start_script (st : TaskState) (script : List ScriptAction) : RunResult :=
  match run_actions (run_entry st) script with
  | (st2, .normal) =>
      { state := { st2 with interrupt_reason := .shutdown, executing := false },
        interrupts := [st2.interrupt_reason], raised := false }
  | (st2, .stopExc) =>
      let st3 := { st2 with interrupt_reason := .stopped }
      { state := { st3 with interrupt_reason := .shutdown, executing := false },
        interrupts := [st3.interrupt_reason], raised := false }
  | (st2, .otherError) =>
      { state := { st2 with interrupt_reason := .failed },
        interrupts := [], raised := true }

/-- Method `ScriptThread.finalize_script` (default body): calls `interrupt_script`
once; the lifecycle state is not modified.  Returns the state together with
the `interrupt_reason` current at each `interrupt_script` call. -/
def finalize_script (st : TaskState) : TaskState × List Reason :=
  (st, [st.interrupt_reason])

/-- Method `ScriptThread.finalize_task`: `self.finalize_script()`. -/
def finalize_task (st : TaskState) : TaskState × List Reason :=
  finalize_script st

/-- The lifecycle states observable from outside the controller: the initial
state, the state after an interrupt is processed, the state right after a run
is entered, the state after a supervised run ends (normally, stopped, or
failed), the intermediate states at each script step inside a run, and the
state after teardown. -/
inductive Reaches : TaskState → Prop
  | init : Reaches initState
  | intr {st : TaskState} (i : Interrupt) : Reaches st → Reaches (process_interrupt st i)
  | runEntry {st : TaskState} : Reaches st → Reaches (run_entry st)
  | midRun {st : TaskState} (script : List ScriptAction) :
      Reaches st → Reaches (run_actions (run_entry st) script).1
  | runDone {st : TaskState} (script : List ScriptAction) :
      Reaches st → Reaches (start_script st script).state
  | teardown {st : TaskState} : Reaches st → Reaches (finalize_task st).1

/-- The spec's lifecycle invariant: `executing == False` iff
`interrupt_reason == "shutdown"`. -/
def lifecycleInvariant (st : TaskState) : Prop :=
  st.executing = false ↔ st.interrupt_reason = .shutdown

/-! ## Registry lemmas -/

theorem lookupMon_updateMon_self (reg : Registry) (mon : String)
    (sig sig' : MonitoredSignal) (h : lookupMon reg mon = some sig) :
    lookupMon (updateMon reg mon sig') mon = some sig' := by
  induction reg with
  | nil => simp [lookupMon] at h
  | cons p rest ih =>
      obtain ⟨k, v⟩ := p
      by_cases hk : k = mon
      · subst hk
        simp [lookupMon, updateMon]
      · simp only [lookupMon, updateMon, if_neg hk] at h ⊢
        exact ih h

theorem lookupMon_updateMon_ne (reg : Registry) (mon k : String)
    (sig' : MonitoredSignal) (hk : k ≠ mon) :
    lookupMon (updateMon reg mon sig') k = lookupMon reg k := by
  induction reg with
  | nil => simp [lookupMon, updateMon]
  | cons p rest ih =>
      obtain ⟨k', v⟩ := p
      by_cases hk' : k' = mon
      · subst hk'
        simp only [updateMon, if_pos rfl, lookupMon]
        have : ¬(k' = k) := fun h => hk (h ▸ rfl)
        simp [if_neg this]
      · simp only [updateMon, if_neg hk', lookupMon]
        by_cases hkk : k' = k
        · simp [if_pos hkk]
        · simp only [if_neg hkk]
          exact ih

theorem lookupMon_none_iff_containsMon_false (reg : Registry) (mon : String) :
    lookupMon reg mon = none ↔ containsMon reg mon = false := by
  induction reg with
  | nil => simp [lookupMon, containsMon]
  | cons p rest ih =>
      obtain ⟨k, v⟩ := p
      by_cases hk : k = mon
      · simp [lookupMon, containsMon, if_pos hk]
      · simp only [lookupMon, containsMon, if_neg hk]
        exact ih

theorem lookupMon_append_self (reg : Registry) (mon : String)
    (sig : MonitoredSignal) (h : containsMon reg mon = false) :
    lookupMon (reg ++ [(mon, sig)]) mon = some sig := by
  induction reg with
  | nil => simp [lookupMon]
  | cons p rest ih =>
      obtain ⟨k, v⟩ := p
      simp only [containsMon] at h
      by_cases hk : k = mon
      · simp [if_pos hk] at h
      · simp only [if_neg hk] at h
        simp only [List.cons_append, lookupMon, if_neg hk]
        exact ih h

/-- The drop-while-paused law of `_on_monitor_signal`: a delivery that
matches a paused monitor leaves the registry unchanged. -/
theorem on_monitor_signal_paused (reg : Registry) (name : String)
    (sig : MonitoredSignal) (m : TMulticast)
    (h : lookupMon reg name = some sig) (hp : sig.paused = true) :
    on_monitor_signal reg name m = reg := by
  simp [on_monitor_signal, h, hp]

theorem lookupMon_on_monitor_signal_of_paused (reg : Registry)
    (mon name : String) (sig : MonitoredSignal) (m : TMulticast)
    (h : lookupMon reg mon = some sig) (hp : sig.paused = true) :
    lookupMon (on_monitor_signal reg name m) mon = some sig := by
  by_cases hname : name = mon
  · subst hname
    rw [on_monitor_signal_paused reg name sig m h hp]
    exact h
  · cases hl : lookupMon reg name with
    | none =>
        simp only [on_monitor_signal, hl]
        exact h
    | some sig' =>
        simp only [on_monitor_signal, hl]
        by_cases hp' : sig'.paused = true
        · rw [if_pos hp']
          exact h
        · rw [if_neg hp']
          rw [lookupMon_updateMon_ne reg name mon _ (fun he => hname he.symm)]
          exact h

theorem lookupMon_deliver_all_of_paused (reg : Registry) (mon : String)
    (sig : MonitoredSignal) (deliveries : List (String × TMulticast))
    (h : lookupMon reg mon = some sig) (hp : sig.paused = true) :
    lookupMon (deliver_all reg deliveries) mon = some sig := by
  induction deliveries generalizing reg with
  | nil => exact h
  | cons d rest ih =>
      simp only [deliver_all, List.foldl_cons]
      exact ih _ (lookupMon_on_monitor_signal_of_paused reg mon d.1 sig d.2 h hp)

/-! ## popN lemmas -/

theorem popN_of_le (msgs : List TMulticast) (n : Nat) (h : n ≤ msgs.length) :
    popN msgs n = .ok (msgs.take n, msgs.drop n) := by
  induction n generalizing msgs with
  | zero => simp [popN]
  | succ n ih =>
      cases msgs with
      | nil => simp at h
      | cons m rest =>
          simp only [List.length_cons, Nat.succ_le_succ_iff] at h
          simp only [popN, ih rest h, List.take_succ_cons, List.drop_succ_cons]

theorem popN_of_gt (msgs : List TMulticast) (n : Nat) (h : msgs.length < n) :
    popN msgs n = .error (.indexError "pop from empty list") := by
  induction n generalizing msgs with
  | zero => simp at h
  | succ n ih =>
      cases msgs with
      | nil => simp [popN]
      | cons m rest =>
          simp only [List.length_cons, Nat.succ_lt_succ_iff] at h
          simp only [popN, ih rest h]

/-! ## Lifecycle lemmas -/

theorem process_interrupt_frame (st : TaskState) (i : Interrupt) :
    (process_interrupt st i).executing = st.executing ∧
    (process_interrupt st i).interrupt_reason = st.interrupt_reason := by
  cases i with
  | start =>
      by_cases h : st.executing = true
      · simp [process_interrupt, h]
      · simp [process_interrupt, h]
  | stop => simp [process_interrupt]

theorem check_messages_frame (st : TaskState) (pending : List Interrupt) :
    (check_messages st pending).executing = st.executing ∧
    (check_messages st pending).interrupt_reason = st.interrupt_reason := by
  induction pending generalizing st with
  | nil => exact ⟨rfl, rfl⟩
  | cons i rest ih =>
      simp only [check_messages, List.foldl_cons]
      have h1 := process_interrupt_frame st i
      have h2 := ih (process_interrupt st i)
      simp only [check_messages] at h2
      exact ⟨h2.1.trans h1.1, h2.2.trans h1.2⟩

theorem check_stop_frame (st : TaskState) (flag : Bool) (pending : List Interrupt) :
    (check_stop st flag pending).1.executing = st.executing ∧
    (check_stop st flag pending).1.interrupt_reason = st.interrupt_reason := by
  unfold check_stop
  have hm := check_messages_frame st pending
  cases flag with
  | false =>
      by_cases h : st.stop_request = true <;> simp [h]
  | true =>
      by_cases h : (check_messages st pending).stop_request = true <;>
        simp [h, hm.1, hm.2]

theorem run_actions_frame (script : List ScriptAction) (st : TaskState) :
    (run_actions st script).1.executing = st.executing ∧
    (run_actions st script).1.interrupt_reason = st.interrupt_reason := by
  induction script generalizing st with
  | nil => exact ⟨rfl, rfl⟩
  | cons a rest ih =>
      cases a with
      | checkStop pending =>
          simp only [run_actions]
          have hc := check_stop_frame st true pending
          by_cases h : (check_stop st true pending).2 = true
          · simp only [if_pos h]
            exact hc
          · simp only [if_neg h]
            have hr := ih (check_stop st true pending).1
            exact ⟨hr.1.trans hc.1, hr.2.trans hc.2⟩
      | raiseOther => exact ⟨rfl, rfl⟩
      | other =>
          simp only [run_actions]
          exact ih st

theorem validateMons_error_of_missing (reg : Registry) (mons : List String)
    (mon : String) (h1 : mon ∈ mons) (h2 : lookupMon reg mon = none) :
    validateMons reg mons = .error (.keyError "signal monitor does not exist") := by
  induction mons with
  | nil => simp at h1
  | cons m rest ih =>
      by_cases hm : containsMon reg m = true
      · have hmon : mon ∈ rest := by
          cases List.mem_cons.mp h1 with
          | inl he =>
              subst he
              rw [(lookupMon_none_iff_containsMon_false reg mon).mp h2] at hm
              simp at hm
          | inr hr => exact hr
        simp only [validateMons, if_pos hm]
        exact ih hmon
      · simp only [validateMons]
        rw [if_neg hm]

/-! ## Claim theorems -/

/-- C1: the claim says `removeMonitor(name)` unsubscribes the monitor's
subscription from the bus and discards the record for a registered name, and
raises the no-such-monitor error for an unregistered one.  The code raises
`KeyError` for the unregistered name as claimed, but for a registered name
`uid,_=self._monitored_signals.pop(mon)` unpacks the popped
`MonitoredSignal` instance, which is not iterable, so the call raises
`TypeError` and `self.unsubscribe(uid)` is dead code. -/
theorem C1_remove_monitor_raises_typeError :
    remove_signal_monitor
        { signals := [("m", MonitoredSignal.init 7)], subs := [7] } "m" =
      .error (.typeError "cannot unpack non-iterable MonitoredSignal object") ∧
    remove_signal_monitor
        { signals := [("m", MonitoredSignal.init 7)], subs := [7] } "x" =
      .error (.keyError "signal monitor does not exist") :=
  ⟨rfl, rfl⟩

/-- C2 counterexample: a stop requested before the run begins does not make
the first `check_stop` abort — `_start_script` clears `stop_request` on
entry, so the run completes normally and `interrupt_script` is invoked with
`interrupt_reason == "done"`, not `"stopped"`. -/
theorem C2_stop_before_run_counterexample :
    (process_interrupt initState .stop).stop_request = true ∧
    start_script (process_interrupt initState .stop) [.checkStop []] =
      { state := initState, interrupts := [.done], raised := false } :=
  ⟨rfl, rfl⟩

/-- C2 amended: requesting stop before a run begins sets `stop_request`, but
entering the run clears it, so the first `check_stop` (with no newly
delivered interrupts) does not abort and the run proceeds; only a stop
delivered after the run has begun makes the first `check_stop` abort the run
with `interrupt_reason == "stopped"`. -/
theorem C2_stop_cleared_at_run_entry (st : TaskState)
    (_h : st.stop_request = true) (rest : List ScriptAction) :
    (run_entry st).stop_request = false ∧
    run_actions (run_entry st) (.checkStop [] :: rest) =
      run_actions (run_entry st) rest ∧
    (start_script st [.checkStop [.stop]]).interrupts = [.stopped] ∧
    (start_script st [.checkStop [.stop]]).state.executing = false ∧
    (start_script st [.checkStop [.stop]]).state.interrupt_reason = .shutdown := by
  refine ⟨rfl, ?_, rfl, rfl, rfl⟩
  simp [run_actions, check_stop, check_messages, run_entry]

/-- An idle lifecycle state in which a stop has been requested (the state
after `stop_execution` is processed while no script is running). -/
def idleStopRequested : TaskState :=
  { executing := false, interrupt_reason := .shutdown, stop_request := true }

/-- Witness for `C2_stop_cleared_at_run_entry` at a concrete state. -/
theorem C2_stop_cleared_at_run_entry_witness :
    (run_entry idleStopRequested).stop_request = false ∧
    run_actions (run_entry idleStopRequested) [.checkStop []] =
      run_actions (run_entry idleStopRequested) [] ∧
    (start_script idleStopRequested [.checkStop [.stop]]).interrupts = [.stopped] ∧
    (start_script idleStopRequested [.checkStop [.stop]]).state.executing = false ∧
    (start_script idleStopRequested
        [.checkStop [.stop]]).state.interrupt_reason = .shutdown :=
  C2_stop_cleared_at_run_entry idleStopRequested rfl [.checkStop []]

/-- C4: at the initial state and after every observable transition of the
lifecycle controller (interrupt processing, run entry, every step inside a
run, run completion by any outcome, teardown), `executing == False` holds iff
`interrupt_reason == "shutdown"`. -/
theorem C4_lifecycle_invariant (st : TaskState) (h : Reaches st) :
    lifecycleInvariant st := by
  induction h with
  | init => simp [lifecycleInvariant, initState]
  | @intr st' i _ ih =>
      unfold lifecycleInvariant at ih ⊢
      have hf := process_interrupt_frame st' i
      rw [hf.1, hf.2]
      exact ih
  | @runEntry st' _ _ =>
      simp [lifecycleInvariant, run_entry]
  | @midRun st' script _ _ =>
      unfold lifecycleInvariant
      have hf := run_actions_frame script (run_entry st')
      rw [hf.1, hf.2]
      simp [run_entry]
  | @runDone st' script _ _ =>
      unfold lifecycleInvariant start_script
      have hf := run_actions_frame script (run_entry st')
      cases hr : run_actions (run_entry st') script with
      | mk st2 oc =>
          rw [hr] at hf
          cases oc with
          | normal => simp
          | stopExc => simp
          | otherError =>
              simp only []
              have he : st2.executing = true := by
                rw [hf.1]
                rfl
              simp [he]
  | @teardown st' _ ih => exact ih

/-- Witness for `C4_lifecycle_invariant` at the initial state. -/
theorem C4_lifecycle_invariant_witness : lifecycleInvariant initState :=
  C4_lifecycle_invariant initState Reaches.init

/-- C7: `check_stop` raises the stop signal (clearing `stop_request`) exactly
when `stop_request` is set; a run that ends with the stop signal is caught by
`_start_script`'s supervision frame, which calls `interrupt_script` exactly
once with `interrupt_reason == "stopped"`, does not re-raise, and leaves the
state at `interrupt_reason == "shutdown"` with `executing == False`. -/
theorem C7_stop_signal_supervision (st st2 : TaskState)
    (script : List ScriptAction)
    (h : run_actions (run_entry st) script = (st2, .stopExc)) :
    (∀ s : TaskState, s.stop_request = true →
        check_stop s false [] = ({ s with stop_request := false }, true)) ∧
    (∀ s : TaskState, s.stop_request = false →
        check_stop s false [] = (s, false)) ∧
    (start_script st script).interrupts = [.stopped] ∧
    (start_script st script).state.interrupt_reason = .shutdown ∧
    (start_script st script).state.executing = false ∧
    (start_script st script).raised = false := by
  refine ⟨?_, ?_, ?_, ?_, ?_, ?_⟩
  · intro s hs
    simp [check_stop, hs]
  · intro s hs
    simp [check_stop, hs]
  · unfold start_script
    rw [h]
  · unfold start_script
    rw [h]
  · unfold start_script
    rw [h]
  · unfold start_script
    rw [h]

/-- Witness for `C7_stop_signal_supervision`: a run whose first `check_stop`
observes a freshly delivered stop interrupt. -/
theorem C7_stop_signal_supervision_witness :
    (∀ s : TaskState, s.stop_request = true →
        check_stop s false [] = ({ s with stop_request := false }, true)) ∧
    (∀ s : TaskState, s.stop_request = false →
        check_stop s false [] = (s, false)) ∧
    (start_script initState [.checkStop [.stop]]).interrupts = [.stopped] ∧
    (start_script initState [.checkStop [.stop]]).state.interrupt_reason = .shutdown ∧
    (start_script initState [.checkStop [.stop]]).state.executing = false ∧
    (start_script initState [.checkStop [.stop]]).raised = false :=
  C7_stop_signal_supervision initState
    { executing := true, interrupt_reason := .done, stop_request := false }
    [.checkStop [.stop]] rfl

/-- C8: a run that ends with a non-stop error sets
`interrupt_reason == "failed"` and re-raises without any `interrupt_script`
call on that path; `interrupt_script` is then reached only through teardown,
where `finalize_task` (via the default `finalize_script`) invokes it once. -/
theorem C8_failed_run_reraises (st st2 : TaskState)
    (script : List ScriptAction)
    (h : run_actions (run_entry st) script = (st2, .otherError)) :
    (start_script st script).state.interrupt_reason = .failed ∧
    (start_script st script).raised = true ∧
    (start_script st script).interrupts = [] ∧
    finalize_task (start_script st script).state =
      ((start_script st script).state, [.failed]) := by
  have hs : start_script st script =
      { state := { st2 with interrupt_reason := .failed },
        interrupts := [], raised := true } := by
    unfold start_script
    rw [h]
  rw [hs]
  exact ⟨rfl, rfl, rfl, rfl⟩

/-- Witness for `C8_failed_run_reraises`: a script whose first step raises a
non-stop error. -/
theorem C8_failed_run_reraises_witness :
    (start_script initState [.raiseOther]).state.interrupt_reason = .failed ∧
    (start_script initState [.raiseOther]).raised = true ∧
    (start_script initState [.raiseOther]).interrupts = [] ∧
    finalize_task (start_script initState [.raiseOther]).state =
      ((start_script initState [.raiseOther]).state, [.failed]) :=
  C8_failed_run_reraises initState
    { executing := true, interrupt_reason := .done, stop_request := false }
    [.raiseOther] rfl

/-- C5: a monitor created by `add_signal_monitor` starts `paused == True`;
every delivery matching a paused monitor is silently dropped; and a freshly
added monitor buffers nothing under any sequence of deliveries preceding the
first `start_monitoring` call. -/
theorem C5_paused_until_started (st st' : MonState) (mon : String) (uid : Nat)
    (deliveries : List (String × TMulticast))
    (h : add_signal_monitor st mon uid = .ok st') :
    (MonitoredSignal.init uid).paused = true ∧
    (∀ reg name sig m, lookupMon reg name = some sig → sig.paused = true →
        on_monitor_signal reg name m = reg) ∧
    lookupMon (deliver_all st'.signals deliveries) mon =
      some (MonitoredSignal.init uid) := by
  have hc : containsMon st.signals mon = false := by
    by_cases hcc : containsMon st.signals mon = true
    · simp [add_signal_monitor, hcc] at h
    · simpa using hcc
  have hsig : st'.signals = st.signals ++ [(mon, MonitoredSignal.init uid)] := by
    simp only [add_signal_monitor, hc] at h
    simp only [Bool.false_eq_true, if_false, Except.ok.injEq] at h
    rw [← h]
  refine ⟨rfl, ?_, ?_⟩
  · intro reg name sig m hl hp
    exact on_monitor_signal_paused reg name sig m hl hp
  · have hl : lookupMon st'.signals mon = some (MonitoredSignal.init uid) := by
      rw [hsig]
      exact lookupMon_append_self st.signals mon (MonitoredSignal.init uid) hc
    exact lookupMon_deliver_all_of_paused st'.signals mon
      (MonitoredSignal.init uid) deliveries hl rfl

/-- Witness for `C5_paused_until_started`: an empty registry, one added
monitor, and a matching delivery that arrives before `start_monitoring`. -/
theorem C5_paused_until_started_witness :
    (MonitoredSignal.init 0).paused = true ∧
    (∀ reg name sig m, lookupMon reg name = some sig → sig.paused = true →
        on_monitor_signal reg name m = reg) ∧
    lookupMon
        (deliver_all [("m", MonitoredSignal.init 0)]
          [("m", ⟨"camera1", "frame", 1⟩)]) "m" = some (MonitoredSignal.init 0)
      := by
  have := C5_paused_until_started { signals := [], subs := [] }
    { signals := [("m", MonitoredSignal.init 0)], subs := [0] } "m" 0
    [("m", ⟨"camera1", "frame", 1⟩)] rfl
  exact ⟨this.1, this.2.1, this.2.2⟩

/-- C3 counterexample: with one buffered message and `n = 2`,
`pop_monitored_signal` raises `IndexError` (the list comprehension pops an
already emptied queue), contradicting "never blocks and never fails when
fewer than `n` messages are buffered". -/
theorem C3_pop_more_than_buffered_counterexample :
    pop_monitored_signal [("m", ⟨0, [⟨"s", "t", 1⟩], false⟩)] "m" (some 2) =
      .error (.indexError "pop from empty list") :=
  rfl

/-- C3 amended: for a registered monitor, `pop_monitored_signal` returns
Python `None` when the queue is empty (never an error, for every `n`); with
`n` omitted it pops and returns the oldest message; with `n` given and a
nonempty queue it pops exactly `n` oldest messages in arrival order when
`n ≤ ` queue length, and raises `IndexError` when `n` exceeds the (nonzero)
queue length. -/
theorem C3_pop_behaviour (reg : Registry) (mon : String)
    (sig : MonitoredSignal) (h : lookupMon reg mon = some sig) :
    (sig.messages = [] →
        ∀ n, pop_monitored_signal reg mon n = .ok (.nothing, reg)) ∧
    (∀ m rest, sig.messages = m :: rest →
        pop_monitored_signal reg mon none =
          .ok (.one m, updateMon reg mon { sig with messages := rest })) ∧
    (∀ k, k ≤ sig.messages.length → sig.messages ≠ [] →
        pop_monitored_signal reg mon (some k) =
          .ok (.many (sig.messages.take k),
            updateMon reg mon { sig with messages := sig.messages.drop k })) ∧
    (∀ k, sig.messages.length < k → sig.messages ≠ [] →
        pop_monitored_signal reg mon (some k) =
          .error (.indexError "pop from empty list")) := by
  refine ⟨?_, ?_, ?_, ?_⟩
  · intro he n
    simp [pop_monitored_signal, h, he]
  · intro m rest he
    simp [pop_monitored_signal, h, he]
  · intro k hk hne
    have hlen : sig.messages.length ≠ 0 := fun h0 =>
      hne (List.length_eq_zero.mp h0)
    simp only [pop_monitored_signal, h, if_pos hlen, popN_of_le _ k hk]
  · intro k hk hne
    have hlen : sig.messages.length ≠ 0 := fun h0 =>
      hne (List.length_eq_zero.mp h0)
    simp only [pop_monitored_signal, h, if_pos hlen, popN_of_gt _ k hk]

/-- Witness for `C3_pop_behaviour`: two buffered messages, popping `n = 2`
returns both in arrival order. -/
theorem C3_pop_behaviour_witness :
    pop_monitored_signal
        [("m", ⟨0, [⟨"s", "t", 1⟩, ⟨"s", "t", 2⟩], false⟩)] "m" (some 2) =
      .ok (.many [⟨"s", "t", 1⟩, ⟨"s", "t", 2⟩],
        updateMon [("m", ⟨0, [⟨"s", "t", 1⟩, ⟨"s", "t", 2⟩], false⟩)] "m"
          ⟨0, [], false⟩) := by
  have := (C3_pop_behaviour
      [("m", ⟨0, [⟨"s", "t", 1⟩, ⟨"s", "t", 2⟩], false⟩)] "m"
      ⟨0, [⟨"s", "t", 1⟩, ⟨"s", "t", 2⟩], false⟩ rfl).2.2.1
      2 (by decide) (by decide)
  exact this

/-- C9: for a registered monitor, `reset_monitored_signal` empties exactly
that monitor's queue: the stored record keeps its `paused` flag and its
subscription uid, and every other monitor's registry entry is unchanged. -/
theorem C9_reset_frame (reg : Registry) (mon : String)
    (sig : MonitoredSignal) (h : lookupMon reg mon = some sig) :
    reset_monitored_signal reg mon =
      .ok (updateMon reg mon { sig with messages := [] }) ∧
    lookupMon (updateMon reg mon { sig with messages := [] }) mon =
      some { sig with messages := [] } ∧
    ({ sig with messages := ([] : List TMulticast) }).paused = sig.paused ∧
    ({ sig with messages := ([] : List TMulticast) }).uid = sig.uid ∧
    (∀ other, other ≠ mon →
        lookupMon (updateMon reg mon { sig with messages := [] }) other =
          lookupMon reg other) := by
  refine ⟨?_, ?_, rfl, rfl, ?_⟩
  · simp [reset_monitored_signal, h]
  · exact lookupMon_updateMon_self reg mon sig _ h
  · intro other hne
    exact lookupMon_updateMon_ne reg mon other _ hne

/-- Witness for `C9_reset_frame`: a two-monitor registry; resetting `"m"`
clears its queue and leaves `"k"` untouched. -/
theorem C9_reset_frame_witness :
    reset_monitored_signal
        [("m", ⟨0, [⟨"s", "t", 1⟩], false⟩), ("k", ⟨1, [⟨"s", "t", 2⟩], true⟩)]
        "m" =
      .ok (updateMon
        [("m", ⟨0, [⟨"s", "t", 1⟩], false⟩), ("k", ⟨1, [⟨"s", "t", 2⟩], true⟩)]
        "m" ⟨0, [], false⟩) :=
  (C9_reset_frame
    [("m", ⟨0, [⟨"s", "t", 1⟩], false⟩), ("k", ⟨1, [⟨"s", "t", 2⟩], true⟩)]
    "m" ⟨0, [⟨"s", "t", 1⟩], false⟩ rfl).1

/-- C6: when all requested monitor names are registered,
`wait_for_signal_monitor` (a) returns a popped `(monitor, message)` result
immediately — the same result for every sequence of deliveries the wait
could have pumped — whenever some requested monitor already has a buffered
message at call entry, and (b) returns `none` (Python `None`), not an error,
when nothing is buffered at entry and the wait ends with every requested
queue still empty. -/
theorem C6_wait_immediate_or_empty (reg : Registry) (mons : List String)
    (hvalid : validateMons reg mons = .ok ()) :
    (∀ mon msg reg1,
        check_monitors_pop reg mons = .ok (some (mon, msg, reg1)) →
        ∀ arrivals, wait_for_signal_monitor reg mons arrivals =
          .ok (some (mon, msg), reg1)) ∧
    (∀ arrivals reg2,
        check_monitors_pop reg mons = .ok none →
        wait_until_monitors reg mons arrivals = .ok reg2 →
        check_monitors_pop reg2 mons = .ok none →
        wait_for_signal_monitor reg mons arrivals = .ok (none, reg2)) := by
  constructor
  · intro mon msg reg1 hpop arrivals
    simp [wait_for_signal_monitor, hvalid, hpop]
  · intro arrivals reg2 hpop hwait hpop2
    simp [wait_for_signal_monitor, hvalid, hpop, hwait, hpop2]

/-- Witness for `C6_wait_immediate_or_empty`: one monitor with a buffered
message; the call returns it immediately, for an arbitrary pending delivery. -/
theorem C6_wait_immediate_or_empty_witness :
    wait_for_signal_monitor [("m", ⟨0, [⟨"s", "t", 1⟩], false⟩)] ["m"]
        [("m", ⟨"s", "t", 2⟩)] =
      .ok (some ("m", ⟨"s", "t", 1⟩), [("m", ⟨0, [], false⟩)]) :=
  (C6_wait_immediate_or_empty [("m", ⟨0, [⟨"s", "t", 1⟩], false⟩)] ["m"]
      rfl).1 "m" ⟨"s", "t", 1⟩ [("m", ⟨0, [], false⟩)] rfl [("m", ⟨"s", "t", 2⟩)]

/-- C10: if any requested monitor name is unregistered,
`wait_for_signal_monitor` raises `KeyError` up front: the same error results
for every sequence of deliveries the wait could have pumped, so no waiting
happens and no registered monitor's queue is popped. -/
theorem C10_wait_missing_monitor (reg : Registry) (mons : List String)
    (mon : String) (h1 : mon ∈ mons) (h2 : lookupMon reg mon = none)
    (arrivals : List (String × TMulticast)) :
    wait_for_signal_monitor reg mons arrivals =
      .error (.keyError "signal monitor does not exist") := by
  unfold wait_for_signal_monitor
  rw [validateMons_error_of_missing reg mons mon h1 h2]

/-- Witness for `C10_wait_missing_monitor`: `"x"` is not registered, so the
call fails even though `"m"` is registered and has a buffered message. -/
theorem C10_wait_missing_monitor_witness :
    wait_for_signal_monitor [("m", ⟨0, [⟨"s", "t", 1⟩], false⟩)] ["m", "x"]
        [("m", ⟨"s", "t", 2⟩)] =
      .error (.keyError "signal monitor does not exist") :=
  C10_wait_missing_monitor [("m", ⟨0, [⟨"s", "t", 1⟩], false⟩)] ["m", "x"] "x"
    (by decide) rfl [("m", ⟨"s", "t", 2⟩)]

end ScriptThread
